import Mathlib

/-!
Shallow embedding of `diesel/src/mysql/connection/mod.rs`: the MySQL
connection orchestrator of the diesel driver.  The file under
verification owns a raw channel, a statement cache and a transaction
state machine, and routes every query through cache lookup, parameter
binding and execution.

The external collaborators whose code is not part of the file under
`src/` (the raw channel, the statement cache internals, the statement
bind/execute primitives, the default commit-error policy, URL parsing)
are modelled from the specification.  Their observable behaviour is
supplied by a `ChannelOracle` (a deterministic description of how the
server answers each request), and every embedded operation additionally
returns the list of channel round trips it performed, so that theorems
can speak about which network calls an operation makes and in which
order.
-/

namespace Diesel

/-- Modelled from the spec: the error kinds distinguished by commit-error
classification.  Only the distinction between a connection-level failure
that implies an implicit rollback and every other kind matters to the
default policy. -/
inductive DatabaseErrorKind where
  | uniqueViolation
  | closedConnection
  | unknown
  deriving DecidableEq

/-- The `crate::result::Error` type as far as this file observes it:
`Error::BrokenTransaction` is produced by `process_commit_error`, the
other constructors model the per-call error kinds of the spec
(database errors, serialization/bind failures, query build failures). -/
inductive Error where
  | databaseError (kind : DatabaseErrorKind) (msg : String)
  | serializationError (msg : String)
  | queryBuilderError (msg : String)
  | notFound
  | brokenTransaction
  | rollbackTransaction
  deriving DecidableEq

/-- The `crate::result::ConnectionError` type as far as `establish`
observes it: URL parse failures, failures to open the channel, and
`CouldntSetupConfiguration` wrapping the statement error of a failed
session-configuration statement. -/
inductive ConnectionError where
  | invalidConnectionUrl (msg : String)
  | badConnection (msg : String)
  | couldntSetupConfiguration (error : Error)
  deriving DecidableEq

/-- Modelled from the spec: the result of classifying a failed commit is
either to treat the underlying transaction as already finished (return
success) or to surface an error to the caller. -/
inductive CommitErrorOutcome where
  | throw (error : Error)
  | transactionAlreadyEnded
  deriving DecidableEq

/-- The payload of the valid transaction status: the nesting depth. -/
structure ValidTransactionManagerStatus where
  transaction_depth : Nat
  deriving DecidableEq

/-- Transaction manager status: a valid state carrying the nesting
depth, or the unrecoverable in-error state. -/
inductive TransactionManagerStatus where
  | valid (v : ValidTransactionManagerStatus)
  | inError
  deriving DecidableEq

/-- The transaction manager owned by the connection; this file only
reads and stores its `status` field. -/
structure AnsiTransactionManager where
  status : TransactionManagerStatus
  deriving DecidableEq

/-- `AnsiTransactionManager::default()`: the initial `Valid(0)` state. -/
def AnsiTransactionManager.default : AnsiTransactionManager :=
  { status := TransactionManagerStatus.valid { transaction_depth := 0 } }

/-- A MySQL type tag for one bind parameter (abstract). -/
abbrev MysqlType := Nat

/-- The raw byte value of one bind parameter, or null. -/
abbrev BindValue := Option (List Nat)

/-- One bound parameter: a type tag paired with a raw value. -/
abbrev BoundParameter := MysqlType × BindValue

/-- Modelled from the spec: a prepared statement handle.  `id` is the
server-side handle identity, `boundParams` the current bound-value
buffer, overwritten on each bind. -/
structure Statement where
  id : Nat
  boundParams : List BoundParameter
  deriving DecidableEq

/-- A query fingerprint: the rendered SQL text together with the
type-identity token of the logical query structure. -/
abbrev Fingerprint := String × Nat

/-- A query as this file observes it: rendered SQL text, a type-identity
token, and what the bind collector produces for it (type metadata, raw
values, and a possible collection failure). -/
structure Query where
  sql : String
  typeId : Nat
  metadata : List MysqlType
  binds : List BindValue
  collectError : Option Error
  deriving DecidableEq

/-- The fingerprint of a query: SQL text plus type-identity token,
independent of the literal parameter values. -/
def Query.fingerprint (q : Query) : Fingerprint := (q.sql, q.typeId)

/-- Modelled from the spec: the statement cache maps fingerprints to
previously prepared statements. -/
structure StatementCache where
  entries : List (Fingerprint × Statement)
  deriving DecidableEq

/-- `StatementCache::new()`: the empty cache. -/
def StatementCache.new : StatementCache := { entries := [] }

/-- Look a fingerprint up in the cache. -/
def StatementCache.lookup (cache : StatementCache) (f : Fingerprint) : Option Statement :=
  match cache.entries.find? (fun p => decide (p.1 = f)) with
  | some p => some p.2
  | none => none

/-- Store a statement for a fingerprint (newest entry shadows older ones). -/
def StatementCache.insert (cache : StatementCache) (f : Fingerprint) (stmt : Statement) :
    StatementCache :=
  { entries := (f, stmt) :: cache.entries }

/-- One observable round trip on the channel to the server. -/
inductive ChannelEvent where
  | connectCall (url : String)
  | prepareCall (sql : String)
  | executeCall (sql : String) (multiStatements : Bool)
  | stmtExecuteCall (stmtId : Nat)
  deriving DecidableEq

/-- Modelled from the spec: a deterministic description of how the
external collaborators answer each request this file can make — URL
parsing, opening the channel, preparing SQL into a handle, binding
values onto a handle, executing a handle, executing a one-shot batch,
and the affected-row counts reported back. -/
structure ChannelOracle where
  parseResult : String → Except ConnectionError Unit
  connectResult : String → Option ConnectionError
  prepareResult : String → Except Error Nat
  bindResult : Nat → List BoundParameter → Option Error
  stmtExecResult : Nat → Option Error
  stmtAffectedRows : Nat → Nat
  executeResult : String → Except Error Nat

/-- Modelled from the spec: the raw channel state this file can observe —
whether multi-statement mode is currently enabled, and the affected-row
count of the last operation. -/
structure RawConnection where
  multiStatements : Bool
  lastAffectedRows : Nat
  deriving DecidableEq

/-- `RawConnection::new()`: single-statement mode, no completed operation. -/
def RawConnection.new : RawConnection :=
  { multiStatements := false, lastAffectedRows := 0 }

/-- Modelled from the spec: `RawConnection::execute` runs a literal SQL
batch on the channel in the current statement mode, recording the
affected-row count on success. -/
def RawConnection.execute (o : ChannelOracle) (rc : RawConnection) (query : String) :
    Except Error Unit × RawConnection × List ChannelEvent :=
  match o.executeResult query with
  | Except.error e => (Except.error e, rc, [ChannelEvent.executeCall query rc.multiStatements])
  | Except.ok n =>
      (Except.ok (), { rc with lastAffectedRows := n },
        [ChannelEvent.executeCall query rc.multiStatements])

/-- `RawConnection::affected_rows`: the count reported by the last
successful operation. -/
def RawConnection.affected_rows (rc : RawConnection) : Nat := rc.lastAffectedRows

/-- The `MysqlConnection` struct: raw channel, transaction state and
statement cache. -/
structure MysqlConnection where
  raw_connection : RawConnection
  transaction_state : AnsiTransactionManager
  statement_cache : StatementCache
  deriving DecidableEq

/-- Modelled from the spec: whether an error indicates that the server
already terminated the transaction (a connection-level failure implying
an implicit rollback). -/
def impliesImplicitRollback : Error → Bool
  | Error.databaseError DatabaseErrorKind.closedConnection _ => true
  | _ => false

/-- Modelled from the spec: the generic default commit-error policy
shared across backends.  Errors indicating the server already
terminated the transaction are classified as already ended; all other
errors are surfaced unchanged. -/
def default_process_commit_error (state : ValidTransactionManagerStatus) (error : Error) :
    CommitErrorOutcome :=
  match state with
  | _ =>
    if impliesImplicitRollback error then CommitErrorOutcome.transactionAlreadyEnded
    else CommitErrorOutcome.throw error

/-- `MysqlConnection::process_commit_error` (src lines 43-53): in the
in-error state, throw `Error::BrokenTransaction`; in a valid state,
delegate to the shared default policy. -/
def MysqlConnection.process_commit_error (c : MysqlConnection) (error : Error) :
    CommitErrorOutcome :=
  match c.transaction_state.status with
  | TransactionManagerStatus.inError => CommitErrorOutcome.throw Error.brokenTransaction
  | TransactionManagerStatus.valid v => default_process_commit_error v error

/-- The state-passing form of `process_commit_error`: the source takes
the connection by shared reference, so the embedding returns the
connection unchanged and performs no channel round trip. -/
def MysqlConnection.process_commit_error_st (c : MysqlConnection) (error : Error) :
    CommitErrorOutcome × MysqlConnection × List ChannelEvent :=
  (c.process_commit_error error, c, [])

/-- `SimpleConnection::batch_execute` (src lines 31-36): run the query
through `enable_multi_statements`, which (modelled from the spec)
switches multi-statement mode on around the call and off afterwards. -/
def MysqlConnection.batch_execute (o : ChannelOracle) (c : MysqlConnection) (query : String) :
    Except Error Unit × MysqlConnection × List ChannelEvent :=
  let rcOn : RawConnection := { c.raw_connection with multiStatements := true }
  match rcOn.execute o query with
  | (r, rc1, tr) =>
      (r, { c with raw_connection := { rc1 with multiStatements := false } }, tr)

/-- `Connection::execute` (src lines 76-80): run the SQL as a one-shot
batch on the raw channel and map success to the channel-reported
affected-row count.  The statement cache is not consulted. -/
def MysqlConnection.execute (o : ChannelOracle) (c : MysqlConnection) (query : String) :
    Except Error Nat × MysqlConnection × List ChannelEvent :=
  match c.raw_connection.execute o query with
  | (Except.error e, rc1, tr) => (Except.error e, { c with raw_connection := rc1 }, tr)
  | (Except.ok _, rc1, tr) =>
      (Except.ok rc1.affected_rows, { c with raw_connection := rc1 }, tr)

/-- Modelled from the spec: `StatementCache::cached_statement` returns
the cached statement for the fingerprint when present (no round trip);
otherwise it calls the prepare callback, surfaces a prepare failure
without caching anything, and on success inserts and returns the fresh
statement. -/
def StatementCache.cached_statement (cache : StatementCache) (source : Query)
    (prepare_fn : String → Except Error Nat × List ChannelEvent) :
    Except Error Statement × StatementCache × List ChannelEvent :=
  match cache.lookup source.fingerprint with
  | some stmt => (Except.ok stmt, cache, [])
  | none =>
    match prepare_fn source.sql with
    | (Except.error e, tr) => (Except.error e, cache, tr)
    | (Except.ok sid, tr) =>
      let stmt : Statement := { id := sid, boundParams := [] }
      (Except.ok stmt, cache.insert source.fingerprint stmt, tr)

/-- The body of `MysqlConnection::prepared_query` acting on the borrowed
statement cache (the source splits the borrow: the cache and the raw
channel are used independently; the raw channel only through the
prepare callback).  Cache lookup or prepare first, then parameter
collection, then the positional zip of metadata with values, then bind;
every failure propagates immediately. -/
def prepared_query_core (o : ChannelOracle) (cache : StatementCache) (source : Query) :
    Except Error Statement × StatementCache × List ChannelEvent :=
  match cache.cached_statement source
      (fun sql => (o.prepareResult sql, [ChannelEvent.prepareCall sql])) with
  | (Except.error e, cache1, tr) => (Except.error e, cache1, tr)
  | (Except.ok stmt, cache1, tr) =>
    match source.collectError with
    | some e => (Except.error e, cache1, tr)
    | none =>
      match o.bindResult stmt.id (source.metadata.zip source.binds) with
      | some e => (Except.error e, cache1, tr)
      | none =>
        let stmt1 : Statement := { stmt with boundParams := source.metadata.zip source.binds }
        (Except.ok stmt1, cache1.insert source.fingerprint stmt1, tr)

/-- `MysqlConnection::prepared_query` (src lines 133-150): run the core
on the statement cache field and write the updated cache back into the
connection. -/
def MysqlConnection.prepared_query (o : ChannelOracle) (c : MysqlConnection) (source : Query) :
    Except Error Statement × MysqlConnection × List ChannelEvent :=
  match prepared_query_core o c.statement_cache source with
  | (r, cache1, tr) => (r, { c with statement_cache := cache1 }, tr)

/-- `Connection::execute_returning_count` (src lines 100-110): prepare
(through the cache) and bind, then execute the statement and return its
affected-row count. -/
def MysqlConnection.execute_returning_count (o : ChannelOracle) (c : MysqlConnection)
    (source : Query) : Except Error Nat × MysqlConnection × List ChannelEvent :=
  match c.prepared_query o source with
  | (Except.error e, c1, tr) => (Except.error e, c1, tr)
  | (Except.ok stmt, c1, tr) =>
    match o.stmtExecResult stmt.id with
    | some e => (Except.error e, c1, tr ++ [ChannelEvent.stmtExecuteCall stmt.id])
    | none =>
        (Except.ok (o.stmtAffectedRows stmt.id), c1,
          tr ++ [ChannelEvent.stmtExecuteCall stmt.id])

/-- The five session-configuration statements issued by
`set_config_options` (src lines 152-159), in source order. -/
def configStatements : List String :=
  ["SET sql_mode=(SELECT CONCAT(@@sql_mode, \x27,PIPES_AS_CONCAT\x27))",
   "SET time_zone = \x27+00:00\x27;",
   "SET character_set_client = \x27utf8mb4\x27",
   "SET character_set_connection = \x27utf8mb4\x27",
   "SET character_set_results = \x27utf8mb4\x27"]

/-- Run `Connection::execute` on each SQL string in order, stopping at
the first failure (the chain of early returns in
`set_config_options`). -/
def executeEachCfg (o : ChannelOracle) :
    List String → MysqlConnection → Except Error Unit × MysqlConnection × List ChannelEvent
  | [], c => (Except.ok (), c, [])
  | sql :: rest, c =>
    match c.execute o sql with
    | (Except.error e, c1, tr) => (Except.error e, c1, tr)
    | (Except.ok _, c1, tr) =>
      match executeEachCfg o rest c1 with
      | (r2, c2, tr2) => (r2, c2, tr ++ tr2)

/-- `MysqlConnection::set_config_options` (src lines 152-159): issue the
five configuration statements in order, aborting on the first error. -/
def MysqlConnection.set_config_options (o : ChannelOracle) (c : MysqlConnection) :
    Except Error Unit × MysqlConnection × List ChannelEvent :=
  executeEachCfg o configStatements c

/-- `Connection::establish` (src lines 59-73): parse the URL, open the
channel (surfacing failures of either as connection errors), construct
the connection with a fresh raw channel, the default transaction state
and an empty statement cache, then run the configuration statements,
wrapping any failure in `CouldntSetupConfiguration`. -/
def MysqlConnection.establish (o : ChannelOracle) (database_url : String) :
    Except ConnectionError MysqlConnection × List ChannelEvent :=
  match o.parseResult database_url with
  | Except.error e => (Except.error e, [])
  | Except.ok _ =>
    match o.connectResult database_url with
    | some e => (Except.error e, [ChannelEvent.connectCall database_url])
    | none =>
      let conn : MysqlConnection :=
        { raw_connection := RawConnection.new,
          transaction_state := AnsiTransactionManager.default,
          statement_cache := StatementCache.new }
      match conn.set_config_options o with
      | (Except.error e, _, tr) =>
          (Except.error (ConnectionError.couldntSetupConfiguration e),
            ChannelEvent.connectCall database_url :: tr)
      | (Except.ok _, c1, tr) =>
          (Except.ok c1, ChannelEvent.connectCall database_url :: tr)

/-- Run `execute_returning_count` on each query of a list in order,
collecting the concatenated channel trace. -/
def runAll (o : ChannelOracle) :
    List Query → MysqlConnection → MysqlConnection × List ChannelEvent
  | [], c => (c, [])
  | q :: rest, c =>
    match c.execute_returning_count o q with
    | (_, c1, tr) =>
      match runAll o rest c1 with
      | (c2, tr2) => (c2, tr ++ tr2)

/-- Whether a channel event is a prepare round trip. -/
def isPrepareEvent : ChannelEvent → Bool
  | ChannelEvent.prepareCall _ => true
  | _ => false

/-- Whether a channel event is a statement execution round trip. -/
def isStmtExecEvent : ChannelEvent → Bool
  | ChannelEvent.stmtExecuteCall _ => true
  | _ => false

/-- The number of prepare round trips in a channel trace. -/
def prepCount (tr : List ChannelEvent) : Nat := (tr.filter isPrepareEvent).length

/-- An oracle on which every request succeeds. -/
def oracleAllOk : ChannelOracle :=
  { parseResult := fun _ => Except.ok (),
    connectResult := fun _ => none,
    prepareResult := fun _ => Except.ok 1,
    bindResult := fun _ _ => none,
    stmtExecResult := fun _ => none,
    stmtAffectedRows := fun _ => 1,
    executeResult := fun _ => Except.ok 1 }

/-- An oracle on which every prepare request fails. -/
def oraclePrepareFail : ChannelOracle :=
  { oracleAllOk with prepareResult := fun _ => Except.error (Error.queryBuilderError "bad sql") }

/-- An oracle on which every bind request fails. -/
def oracleBindFail : ChannelOracle :=
  { oracleAllOk with bindResult := fun _ _ => some (Error.serializationError "bind") }

/-- An oracle on which opening the channel fails. -/
def oracleConnectFail : ChannelOracle :=
  { oracleAllOk with connectResult := fun _ => some (ConnectionError.badConnection "refused") }

/-- An oracle on which every one-shot execute fails. -/
def oracleConfigFail : ChannelOracle :=
  { oracleAllOk with
      executeResult := fun _ => Except.error (Error.databaseError DatabaseErrorKind.unknown "cfg") }

/-- A parameterless query. -/
def q1 : Query :=
  { sql := "SELECT 1", typeId := 0, metadata := [], binds := [], collectError := none }

/-- A two-parameter query. -/
def q2 : Query :=
  { sql := "SELECT ?", typeId := 1, metadata := [3, 3], binds := [some [1], some [2]],
    collectError := none }

/-- A query whose bind collector yields two metadata entries but only
one value. -/
def qMismatch : Query :=
  { sql := "SELECT ?", typeId := 2, metadata := [3, 3], binds := [some [9]],
    collectError := none }

/-- A connection in the initial state: fresh channel, `Valid(0)`, empty
cache. -/
def connValid0 : MysqlConnection :=
  { raw_connection := RawConnection.new,
    transaction_state := AnsiTransactionManager.default,
    statement_cache := StatementCache.new }

/-- A connection whose transaction state is in error. -/
def connInError : MysqlConnection :=
  { connValid0 with transaction_state := { status := TransactionManagerStatus.inError } }

/-- A connection holding a cached statement for the fingerprint of `q2`. -/
def connWithCachedQ2 : MysqlConnection :=
  { connValid0 with
      statement_cache :=
        StatementCache.new.insert q2.fingerprint { id := 7, boundParams := [] } }

/-! ## Supporting lemmas -/

/-- Looking anything up in the empty cache yields nothing. -/
theorem StatementCache.lookup_new (f : Fingerprint) : StatementCache.new.lookup f = none := rfl

/-- Lookup after insert: the inserted fingerprint finds the new statement,
every other fingerprint finds what it found before. -/
theorem StatementCache.lookup_insert (cache : StatementCache) (f g : Fingerprint)
    (stmt : Statement) :
    (cache.insert f stmt).lookup g = if g = f then some stmt else cache.lookup g := by
  by_cases h : g = f
  · subst h
    simp [StatementCache.insert, StatementCache.lookup]
  · have h2 : ¬f = g := fun hh => h hh.symm
    simp [StatementCache.insert, StatementCache.lookup, h, h2]

/-- `prepared_query` only rewrites the statement-cache field of the
connection: its result on any connection is the core result on the
cache field. -/
theorem prepared_query_eq_core (o : ChannelOracle) (c : MysqlConnection) (q : Query) :
    c.prepared_query o q =
      ((prepared_query_core o c.statement_cache q).1,
       { c with statement_cache := (prepared_query_core o c.statement_cache q).2.1 },
       (prepared_query_core o c.statement_cache q).2.2) := by
  rcases h : prepared_query_core o c.statement_cache q with ⟨r, cache1, tr⟩
  simp [MysqlConnection.prepared_query, h]

/-! ## Claim theorems -/

/-- C1: for every error passed to commit-error classification, if the
transaction state is in error the outcome surfaces
`Error.brokenTransaction`; otherwise the outcome is exactly what the
shared default policy returns for the current valid state and the
error. -/
theorem process_commit_error_classification (c : MysqlConnection) (error : Error) :
    (c.transaction_state.status = TransactionManagerStatus.inError →
      c.process_commit_error error = CommitErrorOutcome.throw Error.brokenTransaction) ∧
    (∀ v, c.transaction_state.status = TransactionManagerStatus.valid v →
      c.process_commit_error error = default_process_commit_error v error) := by
  constructor
  · intro h
    unfold MysqlConnection.process_commit_error
    rw [h]
  · intro v h
    unfold MysqlConnection.process_commit_error
    rw [h]

/-- Witness for C1 at a broken connection and at a valid one. -/
theorem process_commit_error_classification_witness :
    connInError.process_commit_error Error.notFound =
        CommitErrorOutcome.throw Error.brokenTransaction ∧
    connValid0.process_commit_error Error.notFound =
        default_process_commit_error { transaction_depth := 0 } Error.notFound :=
  ⟨(process_commit_error_classification connInError Error.notFound).1 rfl,
   (process_commit_error_classification connValid0 Error.notFound).2
     { transaction_depth := 0 } rfl⟩

/-- C10: classifying a commit error never mutates the connection — the
connection (its transaction state, statement cache and raw channel)
after classification is exactly the one before, and no channel round
trip is made. -/
theorem process_commit_error_frame (c : MysqlConnection) (error : Error) :
    (c.process_commit_error_st error).2.1 = c ∧
    (c.process_commit_error_st error).2.1.transaction_state = c.transaction_state ∧
    (c.process_commit_error_st error).2.1.statement_cache = c.statement_cache ∧
    (c.process_commit_error_st error).2.1.raw_connection = c.raw_connection ∧
    (c.process_commit_error_st error).2.2 = [] :=
  ⟨rfl, rfl, rfl, rfl, rfl⟩

/-- C7: `execute` runs the SQL as a one-shot batch bypassing the
statement cache — the cache is untouched and the only channel round
trip is the batch execute itself — and when the channel accepts the
statement the channel-reported affected-row count is returned. -/
theorem execute_bypasses_cache (o : ChannelOracle) (c : MysqlConnection) (sql : String) :
    (c.execute o sql).2.1.statement_cache = c.statement_cache ∧
    (c.execute o sql).2.2 = [ChannelEvent.executeCall sql c.raw_connection.multiStatements] ∧
    (∀ n, o.executeResult sql = Except.ok n → (c.execute o sql).1 = Except.ok n) := by
  cases h : o.executeResult sql with
  | error e =>
    refine ⟨?_, ?_, ?_⟩ <;>
      simp [MysqlConnection.execute, RawConnection.execute, RawConnection.affected_rows, h]
  | ok n =>
    refine ⟨?_, ?_, ?_⟩ <;>
      simp [MysqlConnection.execute, RawConnection.execute, RawConnection.affected_rows, h]

/-- Witness for C7 on the all-success oracle. -/
theorem execute_bypasses_cache_witness :
    (connValid0.execute oracleAllOk "SELECT 1").2.1.statement_cache = connValid0.statement_cache ∧
    (connValid0.execute oracleAllOk "SELECT 1").2.2 = [ChannelEvent.executeCall "SELECT 1" false] ∧
    (connValid0.execute oracleAllOk "SELECT 1").1 = Except.ok 1 :=
  ⟨(execute_bypasses_cache oracleAllOk connValid0 "SELECT 1").1,
   (execute_bypasses_cache oracleAllOk connValid0 "SELECT 1").2.1,
   (execute_bypasses_cache oracleAllOk connValid0 "SELECT 1").2.2 1 rfl⟩

/-- C8: `batch_execute` enables multi-statement mode only for the
duration of the call — the single round trip it issues runs in
multi-statement mode, the connection afterwards is back in
single-statement mode, a successful channel answer yields success, and
an immediately following `batch_execute` issues the same single
multi-statement round trip again. -/
theorem batch_execute_scoped_multi_statements (o : ChannelOracle) (c : MysqlConnection)
    (sql : String) :
    (c.batch_execute o sql).2.1.raw_connection.multiStatements = false ∧
    (c.batch_execute o sql).2.2 = [ChannelEvent.executeCall sql true] ∧
    (∀ n, o.executeResult sql = Except.ok n → (c.batch_execute o sql).1 = Except.ok ()) ∧
    ((c.batch_execute o sql).2.1.batch_execute o sql).2.2 =
      [ChannelEvent.executeCall sql true] := by
  cases h : o.executeResult sql with
  | error e =>
    refine ⟨?_, ?_, ?_, ?_⟩ <;>
      simp [MysqlConnection.batch_execute, RawConnection.execute, h]
  | ok n =>
    refine ⟨?_, ?_, ?_, ?_⟩ <;>
      simp [MysqlConnection.batch_execute, RawConnection.execute, h]

/-- Witness for C8: a multi-statement batch and an immediate rerun. -/
theorem batch_execute_scoped_multi_statements_witness :
    (connValid0.batch_execute oracleAllOk "SELECT 1; SELECT 2; SELECT 3;").2.1.raw_connection.multiStatements = false ∧
    (connValid0.batch_execute oracleAllOk "SELECT 1; SELECT 2; SELECT 3;").2.2 =
      [ChannelEvent.executeCall "SELECT 1; SELECT 2; SELECT 3;" true] ∧
    (connValid0.batch_execute oracleAllOk "SELECT 1; SELECT 2; SELECT 3;").1 = Except.ok () ∧
    ((connValid0.batch_execute oracleAllOk "SELECT 1; SELECT 2; SELECT 3;").2.1.batch_execute
        oracleAllOk "SELECT 1; SELECT 2; SELECT 3;").2.2 =
      [ChannelEvent.executeCall "SELECT 1; SELECT 2; SELECT 3;" true] := by
  have h := batch_execute_scoped_multi_statements oracleAllOk connValid0
    "SELECT 1; SELECT 2; SELECT 3;"
  exact ⟨h.1, h.2.1, h.2.2.1 1 rfl, h.2.2.2⟩

/-- C2 counterexample: on a connection whose transaction state is in
error, `execute_returning_count` still contacts the channel (it issues
a prepare and an execute round trip) and does not fail with
`Error.brokenTransaction`. -/
theorem execute_in_error_contacts_channel :
    connInError.transaction_state.status = TransactionManagerStatus.inError ∧
    (connInError.execute_returning_count oracleAllOk q1).2.2 =
      [ChannelEvent.prepareCall "SELECT 1", ChannelEvent.stmtExecuteCall 1] ∧
    (connInError.execute_returning_count oracleAllOk q1).1 = Except.ok 1 :=
  ⟨rfl, rfl, rfl⟩

/-- C2 (amended): `execute_returning_count` performs no broken-state
check — its result and its channel trace are independent of the
transaction state, which it passes through unchanged, so a connection
in the in-error state still goes through the full prepare/bind/execute
path. -/
theorem execute_returning_count_ignores_transaction_state (o : ChannelOracle)
    (c : MysqlConnection) (q : Query) (t : AnsiTransactionManager) :
    (({ c with transaction_state := t } : MysqlConnection).execute_returning_count o q).1 =
        (c.execute_returning_count o q).1 ∧
    (({ c with transaction_state := t } : MysqlConnection).execute_returning_count o q).2.2 =
        (c.execute_returning_count o q).2.2 ∧
    (({ c with transaction_state := t } :
        MysqlConnection).execute_returning_count o q).2.1.transaction_state = t := by
  rcases h : prepared_query_core o c.statement_cache q with ⟨r, cache1, tr⟩
  have h1 : ({ c with transaction_state := t } : MysqlConnection).prepared_query o q =
      (r, { raw_connection := c.raw_connection, transaction_state := t,
            statement_cache := cache1 }, tr) := by
    simp [MysqlConnection.prepared_query, h]
  have h2 : c.prepared_query o q = (r, { c with statement_cache := cache1 }, tr) := by
    simp [MysqlConnection.prepared_query, h]
  cases r with
  | error e => simp [MysqlConnection.execute_returning_count, h1, h2]
  | ok stmt =>
    cases hs : o.stmtExecResult stmt.id <;>
      simp [MysqlConnection.execute_returning_count, h1, h2, hs]

/-- Every trace of `prepared_query_core` is either empty (cache hit or
failure before any round trip) or the single prepare round trip. -/
theorem prepared_query_core_trace (o : ChannelOracle) (cache : StatementCache) (q : Query) :
    (prepared_query_core o cache q).2.2 = [] ∨
    (prepared_query_core o cache q).2.2 = [ChannelEvent.prepareCall q.sql] := by
  unfold prepared_query_core StatementCache.cached_statement
  cases hl : cache.lookup q.fingerprint with
  | some st =>
    cases hc : q.collectError with
    | some e => simp [hl, hc]
    | none =>
      cases hb : o.bindResult st.id (q.metadata.zip q.binds) with
      | some e => simp [hl, hc, hb]
      | none => simp [hl, hc, hb]
  | none =>
    cases hp : o.prepareResult q.sql with
    | error e => simp [hl, hp]
    | ok sid =>
      cases hc : q.collectError with
      | some e => simp [hl, hp, hc]
      | none =>
        cases hb : o.bindResult sid (q.metadata.zip q.binds) with
        | some e => simp [hl, hp, hc, hb]
        | none => simp [hl, hp, hc, hb]

/-- The trace of `prepared_query` contains no statement-execution round
trip: execution is not part of the prepare-and-bind path. -/
theorem prepared_query_trace_no_exec (o : ChannelOracle) (c : MysqlConnection) (q : Query) :
    (c.prepared_query o q).2.2.filter isStmtExecEvent = [] := by
  rw [prepared_query_eq_core]
  rcases prepared_query_core_trace o c.statement_cache q with h | h <;>
    simp [h, isStmtExecEvent]

/-- When the prepare-and-bind path fails, `execute_returning_count`
propagates the error and adds no round trip of its own. -/
theorem execute_returning_count_error (o : ChannelOracle) (c : MysqlConnection) (q : Query)
    (e : Error) (he : (c.prepared_query o q).1 = Except.error e) :
    (c.execute_returning_count o q).1 = Except.error e ∧
    (c.execute_returning_count o q).2.2 = (c.prepared_query o q).2.2 := by
  rcases hpq : c.prepared_query o q with ⟨r, c1, tr⟩
  rw [hpq] at he
  simp only [] at he
  subst he
  simp [MysqlConnection.execute_returning_count, hpq]

/-- A successful `prepared_query_core` always returns the statement with
the freshly zipped parameter sequence bound onto it. -/
theorem prepared_query_core_ok_binds (o : ChannelOracle) (cache : StatementCache) (q : Query)
    (stmt : Statement) (h : (prepared_query_core o cache q).1 = Except.ok stmt) :
    stmt.boundParams = q.metadata.zip q.binds := by
  unfold prepared_query_core StatementCache.cached_statement at h
  cases hl : cache.lookup q.fingerprint with
  | some st =>
    rw [hl] at h
    cases hc : q.collectError with
    | some e => simp [hc] at h
    | none =>
      cases hb : o.bindResult st.id (q.metadata.zip q.binds) with
      | some e => simp [hc, hb] at h
      | none =>
        simp [hc, hb] at h
        rw [← h]
  | none =>
    rw [hl] at h
    cases hp : o.prepareResult q.sql with
    | error e => simp [hp] at h
    | ok sid =>
      cases hc : q.collectError with
      | some e => simp [hp, hc] at h
      | none =>
        cases hb : o.bindResult sid (q.metadata.zip q.binds) with
        | some e => simp [hp, hc, hb] at h
        | none =>
          simp [hp, hc, hb] at h
          rw [← h]

/-- C6: if preparing fails, the error is surfaced immediately, the
connection (in particular its statement cache) is left unmodified, and
a later execution of the same query attempts the prepare round trip
again. -/
theorem prepare_failure_not_cached (o : ChannelOracle) (c : MysqlConnection) (q : Query)
    (e : Error) (hmiss : c.statement_cache.lookup q.fingerprint = none)
    (hfail : o.prepareResult q.sql = Except.error e) :
    (c.prepared_query o q).1 = Except.error e ∧
    (c.prepared_query o q).2.1 = c ∧
    ((c.prepared_query o q).2.1.prepared_query o q).2.2 = [ChannelEvent.prepareCall q.sql] := by
  have hcore : prepared_query_core o c.statement_cache q =
      (Except.error e, c.statement_cache, [ChannelEvent.prepareCall q.sql]) := by
    simp [prepared_query_core, StatementCache.cached_statement, hmiss, hfail]
  have h1 : c.prepared_query o q = (Except.error e, c, [ChannelEvent.prepareCall q.sql]) := by
    rw [prepared_query_eq_core, hcore]
  exact ⟨by rw [h1], by rw [h1], by rw [h1, h1]⟩

/-- Witness for C6: a failing prepare leaves the fresh connection as it
was and the retry prepares again. -/
theorem prepare_failure_not_cached_witness :
    (connValid0.prepared_query oraclePrepareFail q1).1 =
        Except.error (Error.queryBuilderError "bad sql") ∧
    (connValid0.prepared_query oraclePrepareFail q1).2.1 = connValid0 ∧
    ((connValid0.prepared_query oraclePrepareFail q1).2.1.prepared_query
        oraclePrepareFail q1).2.2 = [ChannelEvent.prepareCall "SELECT 1"] :=
  prepare_failure_not_cached oraclePrepareFail connValid0 q1
    (Error.queryBuilderError "bad sql") rfl rfl

/-- C4: parameter collection and binding happen after the cache lookup
and strictly before execution.  On a cache hit with successful
collection and bind, the reused statement comes back with the freshly
zipped values bound onto it and no prepare round trip is made; and
whenever the prepare-and-bind path fails (a bind error in particular),
the error reaches the caller of `execute_returning_count` with no
statement-execution round trip in the trace. -/
theorem bind_after_lookup_before_execute (o : ChannelOracle) (c : MysqlConnection) (q : Query) :
    (∀ st, c.statement_cache.lookup q.fingerprint = some st →
      q.collectError = none →
      o.bindResult st.id (q.metadata.zip q.binds) = none →
      (c.prepared_query o q).1 =
          Except.ok { st with boundParams := q.metadata.zip q.binds } ∧
      prepCount (c.prepared_query o q).2.2 = 0) ∧
    (∀ e, (c.prepared_query o q).1 = Except.error e →
      (c.execute_returning_count o q).1 = Except.error e ∧
      (c.execute_returning_count o q).2.2.filter isStmtExecEvent = []) := by
  constructor
  · intro st hl hc hb
    have hcore : prepared_query_core o c.statement_cache q =
        (Except.ok { st with boundParams := q.metadata.zip q.binds },
         c.statement_cache.insert q.fingerprint
           { st with boundParams := q.metadata.zip q.binds },
         []) := by
      simp [prepared_query_core, StatementCache.cached_statement, hl, hc, hb]
    rw [prepared_query_eq_core, hcore]
    exact ⟨rfl, rfl⟩
  · intro e he
    rcases execute_returning_count_error o c q e he with ⟨h1, h2⟩
    refine ⟨h1, ?_⟩
    rw [h2]
    exact prepared_query_trace_no_exec o c q
/-- Witness for C4: a rebind onto a cached statement, and a failing bind
that never reaches execution. -/
theorem bind_after_lookup_before_execute_witness :
    (connWithCachedQ2.prepared_query oracleAllOk q2).1 =
        Except.ok { id := 7, boundParams := q2.metadata.zip q2.binds } ∧
    prepCount (connWithCachedQ2.prepared_query oracleAllOk q2).2.2 = 0 ∧
    (connWithCachedQ2.execute_returning_count oracleBindFail q2).1 =
        Except.error (Error.serializationError "bind") ∧
    (connWithCachedQ2.execute_returning_count oracleBindFail q2).2.2.filter
        isStmtExecEvent = [] := by
  have h1 := (bind_after_lookup_before_execute oracleAllOk connWithCachedQ2 q2).1
    { id := 7, boundParams := [] } rfl rfl rfl
  have h2 := (bind_after_lookup_before_execute oracleBindFail connWithCachedQ2 q2).2
    (Error.serializationError "bind") rfl
  exact ⟨h1.1, h1.2, h2.1, h2.2⟩

/-- C9: the parameter sequence bound onto the statement is the
positional zip of the collected metadata with the collected values, so
its length is the minimum of the two lengths and excess entries of the
longer list are dropped at this layer. -/
theorem binds_are_zip_of_metadata_and_values (o : ChannelOracle) (c : MysqlConnection)
    (q : Query) (stmt : Statement) (h : (c.prepared_query o q).1 = Except.ok stmt) :
    stmt.boundParams = q.metadata.zip q.binds ∧
    stmt.boundParams.length = min q.metadata.length q.binds.length := by
  have hcore : (prepared_query_core o c.statement_cache q).1 = Except.ok stmt := by
    rw [prepared_query_eq_core] at h
    exact h
  have h1 : stmt.boundParams = q.metadata.zip q.binds :=
    prepared_query_core_ok_binds o c.statement_cache q stmt hcore
  exact ⟨h1, by rw [h1, List.length_zip]⟩

/-- Witness for C9: with two metadata entries and one value, the excess
metadata entry is dropped and one pair is bound. -/
theorem binds_are_zip_of_metadata_and_values_witness :
    ({ id := 1, boundParams := [((3 : Nat), some [9])] } : Statement).boundParams =
        qMismatch.metadata.zip qMismatch.binds ∧
    ({ id := 1, boundParams := [((3 : Nat), some [9])] } : Statement).boundParams.length =
        min qMismatch.metadata.length qMismatch.binds.length :=
  binds_are_zip_of_metadata_and_values oracleAllOk connValid0 qMismatch
    { id := 1, boundParams := [((3 : Nat), some [9])] } rfl

/-- Prepare round trips add up over concatenated traces. -/
theorem prepCount_append (a b : List ChannelEvent) :
    prepCount (a ++ b) = prepCount a + prepCount b := by
  simp [prepCount, List.filter_append]

/-- Lookup in a cache after an insert misses exactly when it missed
before and the fingerprint is not the inserted one. -/
theorem lookup_insert_none_iff (cache : StatementCache) (f g : Fingerprint)
    (stmt : Statement) :
    ((cache.insert g stmt).lookup f = none) ↔ (cache.lookup f = none ∧ f ≠ g) := by
  rw [StatementCache.lookup_insert]
  by_cases hf : f = g
  · simp [hf]
  · simp [hf]

/-- For a fingerprint present in the cache, missing is equivalent to
missing and differing from that fingerprint. -/
theorem lookup_none_iff_of_mem (cache : StatementCache) (f g : Fingerprint) (st : Statement)
    (hg : cache.lookup g = some st) :
    (cache.lookup f = none) ↔ (cache.lookup f = none ∧ f ≠ g) := by
  constructor
  · intro hf
    refine ⟨hf, ?_⟩
    rintro rfl
    rw [hg] at hf
    cases hf
  · exact fun hf => hf.1

/-- The effect of one `prepared_query_core` call when prepares succeed:
it issues one prepare round trip exactly when the fingerprint was
missing, and afterwards a fingerprint is missing from the cache exactly
when it was missing before and is not the fingerprint just queried. -/
theorem prepared_query_core_effect (o : ChannelOracle) (cache : StatementCache) (q : Query)
    (hp : ∀ s, ∃ n, o.prepareResult s = Except.ok n) :
    prepCount (prepared_query_core o cache q).2.2 =
      (if cache.lookup q.fingerprint = none then 1 else 0) ∧
    (∀ f, ((prepared_query_core o cache q).2.1.lookup f = none ↔
      (cache.lookup f = none ∧ f ≠ q.fingerprint))) := by
  obtain ⟨sid, hpq⟩ := hp q.sql
  cases hl : cache.lookup q.fingerprint with
  | some st =>
    cases hc : q.collectError with
    | some e =>
      have hcore : prepared_query_core o cache q = (Except.error e, cache, []) := by
        simp [prepared_query_core, StatementCache.cached_statement, hl, hc]
      rw [hcore]
      exact ⟨by simp [prepCount, hl], fun f => lookup_none_iff_of_mem cache f _ st hl⟩
    | none =>
      cases hb : o.bindResult st.id (q.metadata.zip q.binds) with
      | some e =>
        have hcore : prepared_query_core o cache q = (Except.error e, cache, []) := by
          simp [prepared_query_core, StatementCache.cached_statement, hl, hc, hb]
        rw [hcore]
        exact ⟨by simp [prepCount, hl], fun f => lookup_none_iff_of_mem cache f _ st hl⟩
      | none =>
        have hcore : prepared_query_core o cache q =
            (Except.ok { st with boundParams := q.metadata.zip q.binds },
             cache.insert q.fingerprint { st with boundParams := q.metadata.zip q.binds },
             []) := by
          simp [prepared_query_core, StatementCache.cached_statement, hl, hc, hb]
        rw [hcore]
        exact ⟨by simp [prepCount, hl], fun f => lookup_insert_none_iff cache f _ _⟩
  | none =>
    cases hc : q.collectError with
    | some e =>
      have hcore : prepared_query_core o cache q =
          (Except.error e, cache.insert q.fingerprint { id := sid, boundParams := [] },
           [ChannelEvent.prepareCall q.sql]) := by
        simp [prepared_query_core, StatementCache.cached_statement, hl, hpq, hc]
      rw [hcore]
      exact ⟨by simp [prepCount, isPrepareEvent, hl],
        fun f => lookup_insert_none_iff cache f _ _⟩
    | none =>
      cases hb : o.bindResult sid (q.metadata.zip q.binds) with
      | some e =>
        have hcore : prepared_query_core o cache q =
            (Except.error e, cache.insert q.fingerprint { id := sid, boundParams := [] },
             [ChannelEvent.prepareCall q.sql]) := by
          simp [prepared_query_core, StatementCache.cached_statement, hl, hpq, hc, hb]
        rw [hcore]
        exact ⟨by simp [prepCount, isPrepareEvent, hl],
          fun f => lookup_insert_none_iff cache f _ _⟩
      | none =>
        have hcore : prepared_query_core o cache q =
            (Except.ok { id := sid, boundParams := q.metadata.zip q.binds },
             (cache.insert q.fingerprint { id := sid, boundParams := [] }).insert
               q.fingerprint { id := sid, boundParams := q.metadata.zip q.binds },
             [ChannelEvent.prepareCall q.sql]) := by
          simp [prepared_query_core, StatementCache.cached_statement, hl, hpq, hc, hb]
        rw [hcore]
        refine ⟨by simp [prepCount, isPrepareEvent, hl], fun f => ?_⟩
        rw [lookup_insert_none_iff, lookup_insert_none_iff]
        tauto

/-- `execute_returning_count` ends in the connection `prepared_query`
produced, and its trace is that of `prepared_query` possibly followed
by one statement-execution round trip. -/
theorem execute_returning_count_parts (o : ChannelOracle) (c : MysqlConnection) (q : Query) :
    (c.execute_returning_count o q).2.1 = (c.prepared_query o q).2.1 ∧
    ((c.execute_returning_count o q).2.2 = (c.prepared_query o q).2.2 ∨
     ∃ sid, (c.execute_returning_count o q).2.2 =
       (c.prepared_query o q).2.2 ++ [ChannelEvent.stmtExecuteCall sid]) := by
  rcases hr : c.prepared_query o q with ⟨r, c1, tr⟩
  cases r with
  | error e => simp [MysqlConnection.execute_returning_count, hr]
  | ok stmt =>
    cases hs : o.stmtExecResult stmt.id with
    | some e =>
      refine ⟨?_, Or.inr ⟨stmt.id, ?_⟩⟩ <;>
        simp [MysqlConnection.execute_returning_count, hr, hs]
    | none =>
      refine ⟨?_, Or.inr ⟨stmt.id, ?_⟩⟩ <;>
        simp [MysqlConnection.execute_returning_count, hr, hs]

/-- Statement execution adds no prepare round trip: the prepare count of
a full `execute_returning_count` call equals that of its
prepare-and-bind part. -/
theorem prepCount_execute_returning_count (o : ChannelOracle) (c : MysqlConnection)
    (q : Query) :
    prepCount (c.execute_returning_count o q).2.2 = prepCount (c.prepared_query o q).2.2 := by
  rcases (execute_returning_count_parts o c q).2 with h | ⟨sid, h⟩ <;>
    simp [h, prepCount_append, prepCount, isPrepareEvent]

/-- The effect of one `execute_returning_count` call on prepare count
and cache membership, when prepares succeed. -/
theorem execute_returning_count_effect (o : ChannelOracle) (c : MysqlConnection) (q : Query)
    (hp : ∀ s, ∃ n, o.prepareResult s = Except.ok n) :
    prepCount (c.execute_returning_count o q).2.2 =
      (if c.statement_cache.lookup q.fingerprint = none then 1 else 0) ∧
    (∀ f, ((c.execute_returning_count o q).2.1.statement_cache.lookup f = none ↔
      (c.statement_cache.lookup f = none ∧ f ≠ q.fingerprint))) := by
  have hcore := prepared_query_core_effect o c.statement_cache q hp
  constructor
  · rw [prepCount_execute_returning_count, prepared_query_eq_core]
    exact hcore.1
  · intro f
    rw [(execute_returning_count_parts o c q).1, prepared_query_eq_core]
    exact hcore.2 f

/-- Prepare count of a run of queries: one prepare per distinct
fingerprint not already in the starting cache. -/
theorem runAll_prepCount (o : ChannelOracle)
    (hp : ∀ s, ∃ n, o.prepareResult s = Except.ok n) :
    ∀ (qs : List Query) (c : MysqlConnection),
      prepCount (runAll o qs c).2 =
        ((qs.map Query.fingerprint).toFinset.filter
          (fun f => c.statement_cache.lookup f = none)).card := by
  intro qs
  induction qs with
  | nil => intro c; simp [runAll, prepCount]
  | cons q rest ih =>
    intro c
    have hrun : (runAll o (q :: rest) c).2 =
        (c.execute_returning_count o q).2.2 ++
          (runAll o rest (c.execute_returning_count o q).2.1).2 := by
      rcases hr : c.execute_returning_count o q with ⟨r, c1, tr⟩
      rcases hrest : runAll o rest c1 with ⟨c2, tr2⟩
      simp [runAll, hr, hrest]
    have heff := execute_returning_count_effect o c q hp
    rw [hrun, prepCount_append, heff.1, ih ((c.execute_returning_count o q).2.1)]
    have hfilter : ((rest.map Query.fingerprint).toFinset.filter
        (fun f => (c.execute_returning_count o q).2.1.statement_cache.lookup f = none)) =
        ((rest.map Query.fingerprint).toFinset.filter
          (fun f => c.statement_cache.lookup f = none)).erase q.fingerprint := by
      ext f
      simp only [Finset.mem_filter, Finset.mem_erase, heff.2 f]
      tauto
    rw [hfilter, List.map_cons, List.toFinset_cons, Finset.filter_insert]
    by_cases hmem : c.statement_cache.lookup q.fingerprint = none
    · rw [if_pos hmem, if_pos hmem]
      by_cases hfs : q.fingerprint ∈ ((rest.map Query.fingerprint).toFinset.filter
          (fun f => c.statement_cache.lookup f = none))
      · rw [Finset.insert_eq_self.mpr hfs]
        have hcard := Finset.card_erase_add_one hfs
        omega
      · rw [Finset.erase_eq_of_not_mem hfs, Finset.card_insert_of_not_mem hfs]
        omega
    · rw [if_neg hmem, if_neg hmem]
      have hfs : q.fingerprint ∉ ((rest.map Query.fingerprint).toFinset.filter
          (fun f => c.statement_cache.lookup f = none)) := by
        intro hmem2
        exact hmem (Finset.mem_filter.mp hmem2).2
      rw [Finset.erase_eq_of_not_mem hfs]
      omega

/-- C3: over any sequence of executions started from an empty statement
cache with a prepare callback that succeeds, the number of prepare
round trips equals the number of distinct fingerprints executed — a
repeated query shape (same fingerprint, any parameter values, in any
interleaving) never prepares twice, and each distinct fingerprint
prepares once. -/
theorem prepare_called_once_per_fingerprint (o : ChannelOracle) (qs : List Query)
    (c : MysqlConnection) (hp : ∀ s, ∃ n, o.prepareResult s = Except.ok n)
    (hc : c.statement_cache = StatementCache.new) :
    prepCount (runAll o qs c).2 = (qs.map Query.fingerprint).toFinset.card := by
  rw [runAll_prepCount o hp qs c]
  have hall : ∀ f ∈ (qs.map Query.fingerprint).toFinset,
      c.statement_cache.lookup f = none := by
    intro f _
    rw [hc]
    exact StatementCache.lookup_new f
  rw [Finset.filter_true_of_mem hall]

/-- Witness for C3: running `q2`, `q1`, `q2` (the repeat interleaved
with another query) issues exactly two prepare round trips. -/
theorem prepare_called_once_per_fingerprint_witness :
    prepCount (runAll oracleAllOk [q2, q1, q2] connValid0).2 = 2 := by
  have h := prepare_called_once_per_fingerprint oracleAllOk [q2, q1, q2] connValid0
    (fun s => ⟨1, rfl⟩) rfl
  rw [h]
  decide

/-- `execute` on a channel answer of `n` affected rows: returns `n`,
records it on the raw channel, issues one batch round trip. -/
theorem execute_ok (o : ChannelOracle) (c : MysqlConnection) (sql : String) (n : Nat)
    (h : o.executeResult sql = Except.ok n) :
    c.execute o sql = (Except.ok n,
      { c with raw_connection := { c.raw_connection with lastAffectedRows := n } },
      [ChannelEvent.executeCall sql c.raw_connection.multiStatements]) := by
  simp [MysqlConnection.execute, RawConnection.execute, RawConnection.affected_rows, h]

/-- `execute` on a failing channel answer: the error propagates and the
connection is unchanged. -/
theorem execute_error (o : ChannelOracle) (c : MysqlConnection) (sql : String) (e : Error)
    (h : o.executeResult sql = Except.error e) :
    c.execute o sql = (Except.error e, c,
      [ChannelEvent.executeCall sql c.raw_connection.multiStatements]) := by
  simp [MysqlConnection.execute, RawConnection.execute, h]

/-- One successful step of the configuration chain. -/
theorem executeEachCfg_cons_ok (o : ChannelOracle) (sql : String) (rest : List String)
    (c : MysqlConnection) (n : Nat) (h : o.executeResult sql = Except.ok n) :
    executeEachCfg o (sql :: rest) c =
      ((executeEachCfg o rest
          { c with raw_connection := { c.raw_connection with lastAffectedRows := n } }).1,
       (executeEachCfg o rest
          { c with raw_connection := { c.raw_connection with lastAffectedRows := n } }).2.1,
       ChannelEvent.executeCall sql c.raw_connection.multiStatements ::
         (executeEachCfg o rest
           { c with raw_connection := { c.raw_connection with lastAffectedRows := n } }).2.2) := by
  rcases hrest : executeEachCfg o rest
      { c with raw_connection := { c.raw_connection with lastAffectedRows := n } } with
    ⟨r2, c2, tr2⟩
  simp [executeEachCfg, execute_ok o c sql n h, hrest]

/-- One failing step of the configuration chain aborts it. -/
theorem executeEachCfg_cons_error (o : ChannelOracle) (sql : String) (rest : List String)
    (c : MysqlConnection) (e : Error) (h : o.executeResult sql = Except.error e) :
    executeEachCfg o (sql :: rest) c = (Except.error e, c,
      [ChannelEvent.executeCall sql c.raw_connection.multiStatements]) := by
  simp [executeEachCfg, execute_error o c sql e h]

/-- The configuration chain only touches the raw channel: statement
cache, transaction state and statement mode pass through unchanged. -/
theorem executeEachCfg_fields (o : ChannelOracle) :
    ∀ (ss : List String) (c : MysqlConnection),
      (executeEachCfg o ss c).2.1.statement_cache = c.statement_cache ∧
      (executeEachCfg o ss c).2.1.transaction_state = c.transaction_state ∧
      (executeEachCfg o ss c).2.1.raw_connection.multiStatements =
        c.raw_connection.multiStatements := by
  intro ss
  induction ss with
  | nil => intro c; exact ⟨rfl, rfl, rfl⟩
  | cons sql rest ih =>
    intro c
    cases h : o.executeResult sql with
    | error e =>
      rw [executeEachCfg_cons_error o sql rest c e h]
      exact ⟨rfl, rfl, rfl⟩
    | ok n =>
      rw [executeEachCfg_cons_ok o sql rest c n h]
      have h2 := ih { c with raw_connection := { c.raw_connection with lastAffectedRows := n } }
      exact ⟨h2.1, h2.2.1, h2.2.2⟩

/-- When every one-shot execute succeeds, the configuration chain
succeeds and issues the statements in order in the current statement
mode. -/
theorem executeEachCfg_trace_ok (o : ChannelOracle)
    (hx : ∀ s, ∃ n, o.executeResult s = Except.ok n) :
    ∀ (ss : List String) (c : MysqlConnection),
      (executeEachCfg o ss c).2.2 =
        ss.map (fun s => ChannelEvent.executeCall s c.raw_connection.multiStatements) ∧
      (executeEachCfg o ss c).1 = Except.ok () := by
  intro ss
  induction ss with
  | nil => intro c; exact ⟨rfl, rfl⟩
  | cons sql rest ih =>
    intro c
    obtain ⟨n, h⟩ := hx sql
    rw [executeEachCfg_cons_ok o sql rest c n h]
    have h2 := ih { c with raw_connection := { c.raw_connection with lastAffectedRows := n } }
    refine ⟨?_, h2.2⟩
    rw [List.map_cons]
    exact congrArg _ h2.1

/-- A failing configuration chain makes `establish` fail with the
wrapped setup error, after the connect round trip and the chain trace. -/
theorem establish_cfg_error (o : ChannelOracle) (url : String) (e : Error)
    (hparse : o.parseResult url = Except.ok ()) (hconn : o.connectResult url = none)
    (hcfg : (connValid0.set_config_options o).1 = Except.error e) :
    MysqlConnection.establish o url =
      (Except.error (ConnectionError.couldntSetupConfiguration e),
       ChannelEvent.connectCall url :: (connValid0.set_config_options o).2.2) := by
  rcases h : connValid0.set_config_options o with ⟨r, c1, tr⟩
  rw [h] at hcfg
  have hr : r = Except.error e := hcfg
  subst hr
  have hlit : MysqlConnection.set_config_options o
      { raw_connection := RawConnection.new,
        transaction_state := AnsiTransactionManager.default,
        statement_cache := StatementCache.new } = (Except.error e, c1, tr) := h
  simp [MysqlConnection.establish, hparse, hconn, hlit, h]

/-- A successful configuration chain makes `establish` return the
configured connection, after the connect round trip and the chain
trace. -/
theorem establish_cfg_ok (o : ChannelOracle) (url : String)
    (hparse : o.parseResult url = Except.ok ()) (hconn : o.connectResult url = none)
    (hcfg : (connValid0.set_config_options o).1 = Except.ok ()) :
    MysqlConnection.establish o url =
      (Except.ok (connValid0.set_config_options o).2.1,
       ChannelEvent.connectCall url :: (connValid0.set_config_options o).2.2) := by
  rcases h : connValid0.set_config_options o with ⟨r, c1, tr⟩
  rw [h] at hcfg
  have hr : r = Except.ok () := hcfg
  subst hr
  have hlit : MysqlConnection.set_config_options o
      { raw_connection := RawConnection.new,
        transaction_state := AnsiTransactionManager.default,
        statement_cache := StatementCache.new } = (Except.ok (), c1, tr) := h
  simp [MysqlConnection.establish, hparse, hconn, hlit, h]

/-- C5: `establish` opens the channel first (a connect failure surfaces
as that connection error with no configuration statement run), then
builds the connection with an empty cache and the transaction manager
at `Valid(0)`, then runs the fixed ordered list of configuration
statements; a configuration failure aborts establishment with
`couldntSetupConfiguration` wrapping the statement error and returns no
connection, while on success the returned connection still has the
empty cache and initial transaction state, and the trace is the connect
round trip followed by the five configuration statements in source
order. -/
theorem establish_sequence (o : ChannelOracle) (url : String)
    (hparse : o.parseResult url = Except.ok ()) :
    (∀ e, o.connectResult url = some e →
      MysqlConnection.establish o url = (Except.error e, [ChannelEvent.connectCall url])) ∧
    (o.connectResult url = none →
      (∀ e, (connValid0.set_config_options o).1 = Except.error e →
        MysqlConnection.establish o url =
          (Except.error (ConnectionError.couldntSetupConfiguration e),
           ChannelEvent.connectCall url :: (connValid0.set_config_options o).2.2)) ∧
      ((connValid0.set_config_options o).1 = Except.ok () →
        MysqlConnection.establish o url =
          (Except.ok (connValid0.set_config_options o).2.1,
           ChannelEvent.connectCall url :: (connValid0.set_config_options o).2.2) ∧
        (connValid0.set_config_options o).2.1.statement_cache = StatementCache.new ∧
        (connValid0.set_config_options o).2.1.transaction_state =
          AnsiTransactionManager.default) ∧
      ((∀ s, ∃ n, o.executeResult s = Except.ok n) →
        (connValid0.set_config_options o).2.2 =
          configStatements.map (fun s => ChannelEvent.executeCall s false))) := by
  refine ⟨?_, fun hconn => ⟨?_, ?_, ?_⟩⟩
  · intro e he
    simp [MysqlConnection.establish, hparse, he]
  · intro e hcfg
    exact establish_cfg_error o url e hparse hconn hcfg
  · intro hcfg
    refine ⟨establish_cfg_ok o url hparse hconn hcfg, ?_, ?_⟩
    · exact (executeEachCfg_fields o configStatements connValid0).1
    · exact (executeEachCfg_fields o configStatements connValid0).2.1
  · intro hx
    exact (executeEachCfg_trace_ok o hx configStatements connValid0).1

/-- Witness for C5: a refused connect, a failing first configuration
statement, and a fully successful establishment. -/
theorem establish_sequence_witness :
    MysqlConnection.establish oracleConnectFail "mysql://h/db" =
      (Except.error (ConnectionError.badConnection "refused"),
       [ChannelEvent.connectCall "mysql://h/db"]) ∧
    (MysqlConnection.establish oracleConfigFail "mysql://h/db").1 =
      Except.error (ConnectionError.couldntSetupConfiguration
        (Error.databaseError DatabaseErrorKind.unknown "cfg")) ∧
    (MysqlConnection.establish oracleAllOk "mysql://h/db").2 =
      ChannelEvent.connectCall "mysql://h/db" ::
        configStatements.map (fun s => ChannelEvent.executeCall s false) := by
  refine ⟨?_, ?_, ?_⟩
  · exact (establish_sequence oracleConnectFail "mysql://h/db" rfl).1
      (ConnectionError.badConnection "refused") rfl
  · rw [((establish_sequence oracleConfigFail "mysql://h/db" rfl).2 rfl).1
      (Error.databaseError DatabaseErrorKind.unknown "cfg") rfl]
  · have h := (establish_sequence oracleAllOk "mysql://h/db" rfl).2 rfl
    rw [(h.2.1 rfl).1, ← h.2.2 (fun s => ⟨1, rfl⟩)]

end Diesel
